import Mathlib

/-!
Shallow embedding of `compute_next_version.py` (WIPACrepo/wipac-dev-next-version-action)
and proofs about its bump-decision pipeline.

Python machine model used throughout:
* Python `str` values are Lean `String`s; character-level operations work on `String.data`.
* Python unbounded `int` is Lean `Int`.
* Raised exceptions are modelled with `Except PyError`; the `PyError` constructors name
  the Python exception classes that the script can raise.
* Module-level configuration (`ENV.IGNORE_PATHS`, `ENV.FORCE_PATCH_IF_NO_COMMIT_TOKEN`)
  is passed explicitly as the `ignore_paths` / `force_patch` parameters.
-/

/-- `class BumpType(enum.Enum)` from the source. -/
inductive BumpType where
  | MAJOR
  | MINOR
  | PATCH
  | NO_BUMP
deriving DecidableEq, Repr, Fintype

/-- Exceptions the script can raise, by Python exception class.
`disqualifiedCommit` is `DisqualifiedCommit`, `invalidVersionStyle` is
`InvalidVersionStyle`, `valueErrorParse` is the `ValueError` re-raised at the
version-parse site (it carries the f-string's `version_tag` and `version_style`
arguments), `valueErrorBumpNotSupported` is the `ValueError` for an unsupported
bump type, `attributeError` is the `AttributeError` raised when an unset
dataclass attribute is read, and `nameError` is the `NameError` raised when an
undefined global name is evaluated. -/
inductive PyError where
  | disqualifiedCommit
  | invalidVersionStyle (version_style : String)
  | valueErrorParse (version_tag : String) (version_style : String)
  | valueErrorBumpNotSupported (bump : BumpType)
  | attributeError
  | nameError
deriving DecidableEq, Repr

deriving instance DecidableEq for Except

/-- `VERSION_STYLE_X_Y_Z = "X.Y.Z"` from the source. -/
def VERSION_STYLE_X_Y_Z : String := "X.Y.Z"

/-- `VERSION_STYLE_X_Y = "X.Y"` from the source. -/
def VERSION_STYLE_X_Y : String := "X.Y"

/-- The `BUMP_TOKENS` dict from the source. -/
def BUMP_TOKENS : BumpType → List String
  | BumpType.MAJOR => ["[major]"]
  | BumpType.MINOR => ["[minor]"]
  | BumpType.PATCH => ["[patch]", "[fix]", "[bump]"]
  | BumpType.NO_BUMP => ["[no-bump]", "[no_bump]", "[nobump]"]

/-- `BUMP_TOKENS.keys()`: Python dicts iterate in insertion order, so the loop in
`Commit.__post_init__` visits the kinds in exactly this order. -/
def bumpTokensKeys : List BumpType :=
  [BumpType.MAJOR, BumpType.MINOR, BumpType.PATCH, BumpType.NO_BUMP]

/-- Does the character list `hay` start with `needle`? (helper for substring search). -/
def startsWithL : List Char → List Char → Bool
  | [], _ => true
  | _ :: _, [] => false
  | a :: as, b :: bs => a = b && startsWithL as bs

/-- Python's `needle in hay` substring test, on character lists. -/
def containsL (needle : List Char) : List Char → Bool
  | [] => startsWithL needle []
  | c :: t => startsWithL needle (c :: t) || containsL needle t

/-- Python's `x in string` for strings (substring containment). -/
def pyIn (needle hay : String) : Bool := containsL needle.data hay.data

/-- Python's `str.lower()`.  The commit titles and tokens involved are ASCII; Lean's
`Char.toLower` agrees with Python on ASCII (full Unicode case folding is out of scope). -/
def pyLower (s : String) : String := String.mk (s.data.map Char.toLower)

/-- The whitespace set of Python's `str.strip()` / `int()` (ASCII part). -/
def pyIsSpace (c : Char) : Bool :=
  c = ' ' || c = '\t' || c = '\n' || c = '\r' || c = '\x0b' || c = '\x0c'

/-- Python's `str.strip()` (ASCII whitespace). -/
def pyStrip (s : String) : String :=
  String.mk (((s.data.dropWhile pyIsSpace).reverse.dropWhile pyIsSpace).reverse)

/-- `_has_bump_token(bump, string)` from the source:
`any(x in string for x in BUMP_TOKENS[bump])`. -/
def has_bump_token (bump : BumpType) (string : String) : Bool :=
  (BUMP_TOKENS bump).any fun x => pyIn x string

/-- A compiled token of an `fnmatch` pattern: `*`, `?`, a `[...]` character class
(with its negation flag and raw member characters), or a literal character. -/
inductive GlobTok where
  | star
  | anyc
  | cls (neg : Bool) (items : List Char)
  | lit (c : Char)
deriving DecidableEq, Repr

/-- Scan forward to the next `]`, returning the characters before it and the rest
after it (the search that `fnmatch.translate` performs for a character class). -/
def scanClassAux : List Char → Option (List Char × List Char)
  | [] => none
  | c :: rest =>
    if c = ']' then some ([], rest)
    else
      match scanClassAux rest with
      | none => none
      | some (con, r) => some (c :: con, r)

theorem scanClassAux_len :
    ∀ (ps con r : List Char), scanClassAux ps = some (con, r) → r.length < ps.length := by
  intro ps
  induction ps with
  | nil => intro con r h; simp [scanClassAux] at h
  | cons c rest ih =>
    intro con r h
    simp only [scanClassAux] at h
    by_cases hc : c = ']'
    · simp [hc] at h
      simp [← h.2]
    · simp only [hc, if_false] at h
      cases hs : scanClassAux rest with
      | none => rw [hs] at h; simp at h
      | some pr =>
        obtain ⟨con', r'⟩ := pr
        rw [hs] at h
        simp at h
        have := ih con' r' hs
        simp [← h.2]
        omega

/-- Scan of a character-class body (after the optional leading `!` has been taken):
a `]` in the first position is an ordinary member, then the scan runs to the
closing `]`.  Returns `none` when there is no closing `]`. -/
def pyClassScanBody (neg : Bool) : List Char → Option (Bool × List Char × List Char)
  | [] => none
  | a :: t =>
    if a = ']' then
      match scanClassAux t with
      | some (con, r) => some (neg, ']' :: con, r)
      | none => none
    else
      match scanClassAux (a :: t) with
      | some (con, r) => some (neg, con, r)
      | none => none

theorem pyClassScanBody_len :
    ∀ (neg : Bool) (after : List Char) (neg' : Bool) (items r : List Char),
      pyClassScanBody neg after = some (neg', items, r) → r.length < after.length := by
  intro neg after neg' items r h
  cases after with
  | nil => simp [pyClassScanBody] at h
  | cons a t =>
    simp only [pyClassScanBody] at h
    by_cases ha : a = ']'
    · simp only [ha, if_true] at h
      cases hs : scanClassAux t with
      | none => rw [hs] at h; simp at h
      | some pr =>
        obtain ⟨con, r'⟩ := pr
        rw [hs] at h
        simp at h
        have := scanClassAux_len t con r' hs
        simp [← h.2.2]
        omega
    · simp only [ha, if_false] at h
      cases hs : scanClassAux (a :: t) with
      | none => rw [hs] at h; simp at h
      | some pr =>
        obtain ⟨con, r'⟩ := pr
        rw [hs] at h
        simp at h
        have := scanClassAux_len (a :: t) con r' hs
        rw [← h.2.2]
        exact this

/-- The character-class scan of `fnmatch.translate`: after a `[`, an optional `!`
negates the class, then `pyClassScanBody` finds the closing `]`.  Returns `none`
when there is no closing `]` (in which case `translate` treats the `[` as a
literal character). -/
def pyClassScan (ps : List Char) : Option (Bool × List Char × List Char) :=
  if ps.head? = some '!' then pyClassScanBody true ps.tail
  else pyClassScanBody false ps

theorem pyClassScan_len :
    ∀ (ps : List Char) (neg : Bool) (items r : List Char),
      pyClassScan ps = some (neg, items, r) → r.length < ps.length := by
  intro ps neg items r h
  rw [pyClassScan] at h
  by_cases hb : ps.head? = some '!'
  · rw [if_pos hb] at h
    have h1 := pyClassScanBody_len true ps.tail neg items r h
    cases ps with
    | nil => simp at hb
    | cons a t => simp only [List.tail_cons] at h1; simp only [List.length_cons]; omega
  · rw [if_neg hb] at h
    exact pyClassScanBody_len false ps neg items r h

/-- Membership of a character in a scanned class body, with `a-b` ranges as in the
regex classes produced by `fnmatch.translate` (a `-` at the start or end is literal). -/
def classMatch : List Char → Char → Bool
  | a :: '-' :: b :: rest, c =>
    (decide (a ≤ c) && decide (c ≤ b)) || classMatch rest c
  | a :: rest, c => a = c || classMatch rest c
  | [], _ => false

/-- Compile an `fnmatch` pattern into tokens, following `fnmatch.translate`:
`*` and `?` are wildcards, `[...]` is a character class (literal `[` when unclosed),
everything else matches literally. -/
def parseGlob : List Char → List GlobTok
  | [] => []
  | '*' :: ps => GlobTok.star :: parseGlob ps
  | '?' :: ps => GlobTok.anyc :: parseGlob ps
  | '[' :: ps =>
    match h : pyClassScan ps with
    | some (neg, items, rest) => GlobTok.cls neg items :: parseGlob rest
    | none => GlobTok.lit '[' :: parseGlob ps
  | c :: ps => GlobTok.lit c :: parseGlob ps
termination_by l => l.length
decreasing_by
  all_goals simp_wf
  all_goals first
    | exact Nat.lt_succ_self _
    | (exact Nat.lt_trans (pyClassScan_len _ _ _ _ h) (Nat.lt_succ_self _))

/-- Match compiled glob tokens against a whole string (regex `\Z`-anchored match,
as `fnmatch` does). -/
def matchTokens : List GlobTok → List Char → Bool
  | [], [] => true
  | [], _ :: _ => false
  | GlobTok.star :: ps, [] => matchTokens ps []
  | GlobTok.star :: ps, c :: s =>
    matchTokens ps (c :: s) || matchTokens (GlobTok.star :: ps) s
  | GlobTok.anyc :: _, [] => false
  | GlobTok.anyc :: ps, _ :: s => matchTokens ps s
  | GlobTok.cls _ _ :: _, [] => false
  | GlobTok.cls neg items :: ps, c :: s =>
    (classMatch items c != neg) && matchTokens ps s
  | GlobTok.lit _ :: _, [] => false
  | GlobTok.lit a :: ps, c :: s => (a = c) && matchTokens ps s
termination_by ps s => (ps.length, s.length)

/-- Python's `fnmatch.fnmatch(name, pat)`.  On POSIX `os.path.normcase` is the
identity, so this is a case-sensitive anchored glob match. -/
def fnmatch (name pat : String) : Bool :=
  matchTokens (parseGlob pat.data) name.data

/-- `are_all_files_ignored(changed_files)` from the source, with the module-global
`ENV.IGNORE_PATHS` passed explicitly as `ignore_paths`.  An empty change set counts
as all-ignored; otherwise every file must match some ignore pattern. -/
def are_all_files_ignored (changed_files : List String) (ignore_paths : List String) : Bool :=
  match changed_files with
  | [] => true
  | _ :: _ => changed_files.all fun f => ignore_paths.any fun pat => fnmatch f pat

/-- The token-scanning loop of `Commit.__post_init__` (lines 104–106):

```
for bump in BUMP_TOKENS.keys():
    if _has_bump_token(bump, self.title_lower):
        self.bump_type = bump
```

The loop has no `break`, so every matching kind overwrites the previous one and the
last matching kind in table order wins.  The result is the state of the `bump_type`
attribute after the loop: `none` means the attribute was never assigned (the
dataclass field has `init=False` and no default, so reading it then raises
`AttributeError`), `some v` means it was assigned the value `v`. -/
def classifierAttr (title_lower : String) : Option (Option BumpType) :=
  bumpTokensKeys.foldl
    (fun acc bump => if has_bump_token bump title_lower then some (some bump) else acc)
    none

/-- `Commit.__post_init__` (lines 99–119), with `ENV` passed explicitly.  Returns the
final value of the `bump_type` attribute, or the exception the constructor raises.

Control flow of the source:
* derive `title_lower`;
* run the token loop (`classifierAttr`);
* `if not self.bump_type:` — when the loop never assigned the attribute this read
  raises `AttributeError`; when it did assign, the value is an enum member and
  always truthy, so the whole tokenless branch (lines 109–116: the
  `are_all_files_ignored` disqualification, the force-patch `PATCH` assignment and
  the `None` assignment) is dead code — it is kept here for fidelity;
* finally, a `NO_BUMP` value raises `DisqualifiedCommit`. -/
def commitPostInit (title : String) (changed_files : List String)
    (ignore_paths : List String) (force_patch : Bool) : Except PyError (Option BumpType) :=
  let title_lower := pyLower title
  match classifierAttr title_lower with
  | none => Except.error PyError.attributeError
  | some bt =>
    match (if bt = none then
            (if are_all_files_ignored changed_files ignore_paths then
              Except.error PyError.disqualifiedCommit
             else if force_patch then Except.ok (some BumpType.PATCH)
             else Except.ok (none : Option BumpType))
           else Except.ok bt) with
    | Except.error e => Except.error e
    | Except.ok bump_type =>
      if bump_type = some BumpType.NO_BUMP then Except.error PyError.disqualifiedCommit
      else Except.ok bump_type

/-- The raw `(sha, title, changed_files)` record for one commit, as handed over by
the VCS collaborator (`git log`) after the record/unit-separator parsing. -/
structure CommitRec where
  sha : String
  title : String
  changed_files : List String
deriving DecidableEq, Repr

/-- The `Commit` dataclass: its three init fields plus the two attributes derived in
`__post_init__`. -/
structure Commit where
  sha : String
  title : String
  changed_files : List String
  title_lower : String
  bump_type : Option BumpType
deriving DecidableEq, Repr

/-- `Commit(sha=..., title=..., changed_files=...)`: run `__post_init__` and build the
object, or propagate the exception it raises. -/
def mkCommit (sha title : String) (changed_files : List String)
    (ignore_paths : List String) (force_patch : Bool) : Except PyError Commit :=
  match commitPostInit title changed_files ignore_paths force_patch with
  | Except.error e => Except.error e
  | Except.ok bt =>
    Except.ok
      { sha := sha, title := title, changed_files := changed_files,
        title_lower := pyLower title, bump_type := bt }

/-- `get_commits_with_changes` (lines 122–166), from the point where the `git log`
output has been parsed into records: construct a `Commit` per record, in order,
silently dropping those whose constructor raises `DisqualifiedCommit`
(`except DisqualifiedCommit: pass`); any other exception (in particular the
`AttributeError` for a tokenless title) propagates. -/
def get_commits_with_changes (records : List CommitRec)
    (ignore_paths : List String) (force_patch : Bool) : Except PyError (List Commit) :=
  match records with
  | [] => Except.ok []
  | r :: rest =>
    match mkCommit r.sha (pyStrip r.title) r.changed_files ignore_paths force_patch with
    | Except.ok c =>
      match get_commits_with_changes rest ignore_paths force_patch with
      | Except.ok cs => Except.ok (c :: cs)
      | Except.error e => Except.error e
    | Except.error PyError.disqualifiedCommit =>
      get_commits_with_changes rest ignore_paths force_patch
    | Except.error e => Except.error e

/-- `_is_tokenless(c)` from inside `_decide_bump_from_commits`: the title has no
marker of any of the four kinds. -/
def is_tokenless (c : Commit) : Bool :=
  !(has_bump_token BumpType.MAJOR c.title_lower
    || has_bump_token BumpType.MINOR c.title_lower
    || has_bump_token BumpType.PATCH c.title_lower
    || has_bump_token BumpType.NO_BUMP c.title_lower)

/-- `_decide_bump_from_commits` (lines 241–297).

Steps (1)–(3) return the first of `MAJOR`, `MINOR`, `PATCH` whose token appears in
some title.  Then `any_no_bump` is computed.  The next statement of the source,

```
any_tokenless_with_effective_change = any(
    _commit_has_non_ignored_changes(c.changed_files, ignore_path_patterns)
    for c in commits
    if _is_tokenless(c)
)
```

calls `_commit_has_non_ignored_changes`, a name that is defined nowhere in the
module, so the generator raises `NameError` as soon as one tokenless commit exists;
when no commit is tokenless the generator is empty and `any()` returns `False`
without ever evaluating the undefined name.  Rules (4)–(6) then run with
`any_tokenless_with_effective_change = False`. -/
def decide_bump_from_commits (commits : List Commit)
    (ignore_path_patterns : List String) (force_patch : Bool) :
    Except PyError (Option BumpType) :=
  let titles_lower := commits.map fun c => c.title_lower
  -- (1–3) Explicit bumps win, in order
  if titles_lower.any (fun t => has_bump_token BumpType.MAJOR t) then
    Except.ok (some BumpType.MAJOR)
  else if titles_lower.any (fun t => has_bump_token BumpType.MINOR t) then
    Except.ok (some BumpType.MINOR)
  else if titles_lower.any (fun t => has_bump_token BumpType.PATCH t) then
    Except.ok (some BumpType.PATCH)
  else
    -- Do we have any [no-bump] anywhere? (global guard checked later)
    let any_no_bump := titles_lower.any fun t => has_bump_token BumpType.NO_BUMP t
    -- the generator evaluates the undefined `_commit_has_non_ignored_changes` on the
    -- first tokenless commit
    if commits.any (fun c => is_tokenless c) then Except.error PyError.nameError
    else
      let any_tokenless_with_effective_change := false
      -- (4) at least one [no-bump] and no tokenless commit with real changes
      if any_no_bump && !any_tokenless_with_effective_change then
        Except.ok (some BumpType.NO_BUMP)
      -- (5) tokenless commit(s) with real changes -> fallback
      else if any_tokenless_with_effective_change then
        Except.ok (if force_patch then some BumpType.PATCH else none)
      -- (6) nothing to do
      else Except.ok none

/-- `major_bump(major)` from the source. -/
def major_bump (major : Int) : Int × Int × Int := (major + 1, 0, 0)

/-- `minor_bump(major, minor)` from the source. -/
def minor_bump (major minor : Int) : Int × Int × Int := (major, minor + 1, 0)

/-- `patch_bump(major, minor, patch)` from the source. -/
def patch_bump (major minor patch : Int) : Int × Int × Int := (major, minor, patch + 1)

/-- The digit run of Python's `int(str)` after an optional sign: at least one ASCII
digit, with single underscores allowed between digits (`accumulating the value`).
Python also accepts non-ASCII decimal digits; the version tags this script handles
are ASCII, so only ASCII digits are modelled. -/
def pyIntDigitsAux (acc : Nat) : List Char → Option Nat
  | [] => some acc
  | '_' :: c :: rest =>
    if c.isDigit then pyIntDigitsAux (acc * 10 + (c.toNat - '0'.toNat)) rest else none
  | c :: rest =>
    if c.isDigit then pyIntDigitsAux (acc * 10 + (c.toNat - '0'.toNat)) rest else none

/-- Parse a nonempty digit run (the part of `int()` after the sign). -/
def pyIntDigits : List Char → Option Nat
  | c :: rest =>
    if c.isDigit then pyIntDigitsAux (c.toNat - '0'.toNat) rest else none
  | [] => none

/-- Python's `int(s)` for base 10: strip whitespace, optional `+`/`-` sign, then a
digit run; anything else raises `ValueError` (modelled as `none`). -/
def pyInt (s : String) : Option Int :=
  match (pyStrip s).data with
  | '-' :: rest => (pyIntDigits rest).map fun n => -(n : Int)
  | '+' :: rest => (pyIntDigits rest).map fun n => (n : Int)
  | l => (pyIntDigits l).map fun n => (n : Int)

/-- `map(int, parts)` as consumed by tuple unpacking: every part must parse. -/
def pyMapInt : List String → Option (List Int)
  | [] => some []
  | p :: rest =>
    match pyInt p, pyMapInt rest with
    | some v, some vs => some (v :: vs)
    | _, _ => none

/-- Python's `s.split(".")` on character lists: split on every `.`, keeping empty
pieces (`"".split(".") == [""]`). -/
def splitOnDot : List Char → List (List Char)
  | [] => [[]]
  | c :: rest =>
    let r := splitOnDot rest
    if c = '.' then [] :: r
    else
      match r with
      | h :: t => (c :: h) :: t
      | [] => [[c]]

/-- Python's `version_tag.split(".")`. -/
def pySplitDot (s : String) : List String := (splitOnDot s.data).map String.mk

/-- The version-parsing `try` block of `increment_bump` (lines 198–210): split on
`.`, convert each component with `int`, and unpack into exactly three (`X.Y.Z`) or
two (`X.Y`, with `patch = 0`) variables.  Both a failing `int()` and a wrong
component count raise `ValueError`, which the `except ValueError` clause turns into
the parse `ValueError` naming the tag and the style; an unrecognized style raises
`InvalidVersionStyle` (a `RuntimeError`, not caught by the `except`). -/
def parse_version (version_tag : String) (version_style : String) :
    Except PyError (Int × Int × Int) :=
  if version_style = VERSION_STYLE_X_Y_Z then
    match pyMapInt (pySplitDot version_tag) with
    | some [major, minor, patch] => Except.ok (major, minor, patch)
    | _ => Except.error (PyError.valueErrorParse version_tag version_style)
  else if version_style = VERSION_STYLE_X_Y then
    match pyMapInt (pySplitDot version_tag) with
    | some [major, minor] => Except.ok (major, minor, 0)
    | _ => Except.error (PyError.valueErrorParse version_tag version_style)
  else Except.error (PyError.invalidVersionStyle version_style)

/-- `increment_bump(version_tag, bump, version_style)` (lines 190–238): parse the
tag, apply the bump math (`PATCH` behaves like `MINOR` under `X.Y`), and stringify
back according to the style. -/
def increment_bump (version_tag : String) (bump : BumpType) (version_style : String) :
    Except PyError String :=
  match parse_version version_tag version_style with
  | Except.error e => Except.error e
  | Except.ok (major, minor, patch) =>
    match (if bump = BumpType.MAJOR then Except.ok (major_bump major)
           else if bump = BumpType.MINOR then Except.ok (minor_bump major minor)
           else if bump = BumpType.PATCH then
             (if version_style = VERSION_STYLE_X_Y_Z then
               Except.ok (patch_bump major minor patch)
              else if version_style = VERSION_STYLE_X_Y then
               Except.ok (minor_bump major minor)
              else Except.error (PyError.invalidVersionStyle version_style))
           else Except.error (PyError.valueErrorBumpNotSupported bump)) with
    | Except.error e => Except.error e
    | Except.ok (major, minor, patch) =>
      if version_style = VERSION_STYLE_X_Y_Z then Except.ok s!"{major}.{minor}.{patch}"
      else if version_style = VERSION_STYLE_X_Y then Except.ok s!"{major}.{minor}"
      else Except.error (PyError.invalidVersionStyle version_style)

/-- `work(version_tag, first_commit, version_style)` (lines 300–331).  The commit
range is represented by the records the VCS collaborator would return for it.  The
returned value is the string printed to stdout (`none` when nothing is printed).

The body's first statements are

```
logging.info(f"{version_tag=}")
logging.info(f"{first_commit=}")
logging.info(f"{ignore_path_patterns=}")
```

and `ignore_path_patterns` (like `force_patch`, both commented out of the
parameter list) is bound nowhere, so evaluating the third f-string raises
`NameError` before any commit is fetched or any bump decided.  Everything after
line 310 is unreachable (and itself references further unbound names:
`force_patch` on lines 311 and 315, `ignore_path_patterns` on line 318,
`changed_files` on line 324). -/
def work (version_tag : String) (first_commit_records : List CommitRec)
    (version_style : String) : Except PyError (Option String) :=
  Except.error PyError.nameError

/-- Position of a kind in the `BUMP_TOKENS` table (= the visiting order of the
classifier loop, = the spec's precedence order Major > Minor > Patch > NoBump). -/
def tableIdx : BumpType → Nat
  | BumpType.MAJOR => 0
  | BumpType.MINOR => 1
  | BumpType.PATCH => 2
  | BumpType.NO_BUMP => 3

/-- Closed form of the classifier loop: because the loop never breaks, the LAST
matching kind in table order is the one left in `bump_type`. -/
theorem classifierAttr_eq (tl : String) :
    classifierAttr tl =
      (if has_bump_token BumpType.NO_BUMP tl then some (some BumpType.NO_BUMP)
       else if has_bump_token BumpType.PATCH tl then some (some BumpType.PATCH)
       else if has_bump_token BumpType.MINOR tl then some (some BumpType.MINOR)
       else if has_bump_token BumpType.MAJOR tl then some (some BumpType.MAJOR)
       else none) := by
  by_cases h1 : has_bump_token BumpType.MAJOR tl <;>
    by_cases h2 : has_bump_token BumpType.MINOR tl <;>
      by_cases h3 : has_bump_token BumpType.PATCH tl <;>
        by_cases h4 : has_bump_token BumpType.NO_BUMP tl <;>
          simp [classifierAttr, bumpTokensKeys, h1, h2, h3, h4]

/-- Closed form of `Commit.__post_init__`: the result depends only on the title.
A present `[no-bump]`-family token always wins (it is checked last by the loop) and
disqualifies; otherwise the last matching explicit kind is returned; with no match
at all, reading the unset `bump_type` attribute raises `AttributeError`. -/
theorem commitPostInit_eq (title : String) (changed_files ignore_paths : List String)
    (force_patch : Bool) :
    commitPostInit title changed_files ignore_paths force_patch =
      (if has_bump_token BumpType.NO_BUMP (pyLower title) then
        Except.error PyError.disqualifiedCommit
       else if has_bump_token BumpType.PATCH (pyLower title) then
        Except.ok (some BumpType.PATCH)
       else if has_bump_token BumpType.MINOR (pyLower title) then
        Except.ok (some BumpType.MINOR)
       else if has_bump_token BumpType.MAJOR (pyLower title) then
        Except.ok (some BumpType.MAJOR)
       else Except.error PyError.attributeError) := by
  rw [commitPostInit, classifierAttr_eq]
  by_cases h1 : has_bump_token BumpType.MAJOR (pyLower title) <;>
    by_cases h2 : has_bump_token BumpType.MINOR (pyLower title) <;>
      by_cases h3 : has_bump_token BumpType.PATCH (pyLower title) <;>
        by_cases h4 : has_bump_token BumpType.NO_BUMP (pyLower title) <;>
          simp [h1, h2, h3, h4]

/-- A successful construction implies no `[no-bump]`-family token in the title. -/
theorem commitPostInit_ok_no_nb_token (title : String)
    (changed_files ignore_paths : List String) (force_patch : Bool)
    (v : Option BumpType)
    (h : commitPostInit title changed_files ignore_paths force_patch = Except.ok v) :
    has_bump_token BumpType.NO_BUMP (pyLower title) = false := by
  rw [commitPostInit_eq] at h
  by_cases h4 : has_bump_token BumpType.NO_BUMP (pyLower title)
  · simp [h4] at h
  · simp [h4]

/-- A successful construction never leaves `NO_BUMP` in `bump_type`. -/
theorem commitPostInit_ok_ne_nb (title : String)
    (changed_files ignore_paths : List String) (force_patch : Bool)
    (v : Option BumpType)
    (h : commitPostInit title changed_files ignore_paths force_patch = Except.ok v) :
    v ≠ some BumpType.NO_BUMP := by
  rw [commitPostInit_eq] at h
  by_cases h4 : has_bump_token BumpType.NO_BUMP (pyLower title) <;>
    by_cases h3 : has_bump_token BumpType.PATCH (pyLower title) <;>
      by_cases h2 : has_bump_token BumpType.MINOR (pyLower title) <;>
        by_cases h1 : has_bump_token BumpType.MAJOR (pyLower title) <;>
          simp [h1, h2, h3, h4] at h <;> simp [← h]

/-- Permuting a list does not change `List.any`. -/
theorem perm_any {α : Type} {l₁ l₂ : List α} (h : l₁.Perm l₂) (f : α → Bool) :
    l₁.any f = l₂.any f := by
  induction h with
  | nil => rfl
  | cons x _ ih => simp [List.any_cons, ih]
  | swap x y l => cases hx : f x <;> cases hy : f y <;> simp [List.any_cons, hx, hy]
  | trans _ _ ih1 ih2 => rw [ih1, ih2]

/-- `pyMapInt` succeeds iff every component parses. -/
theorem pyMapInt_isSome :
    ∀ l : List String, (pyMapInt l).isSome = true ↔ ∀ p ∈ l, (pyInt p).isSome = true := by
  intro l
  induction l with
  | nil => simp [pyMapInt]
  | cons p rest ih =>
    simp only [pyMapInt]
    cases hp : pyInt p with
    | none => simp [hp]
    | some v =>
      cases hr : pyMapInt rest with
      | none =>
        rw [hr] at ih
        simp [hp, ← ih]
      | some vs =>
        rw [hr] at ih
        simp [hp, ← ih]

/-- A successful `pyMapInt` preserves the component count. -/
theorem pyMapInt_length :
    ∀ (l : List String) (r : List Int), pyMapInt l = some r → r.length = l.length := by
  intro l
  induction l with
  | nil => intro r h; simp [pyMapInt] at h; simp [← h]
  | cons p rest ih =>
    intro r h
    simp only [pyMapInt] at h
    cases hp : pyInt p with
    | none => rw [hp] at h; simp at h
    | some v =>
      rw [hp] at h
      cases hr : pyMapInt rest with
      | none => rw [hr] at h; simp at h
      | some vs =>
        rw [hr] at h
        simp at h
        have := ih vs hr
        simp [← h, this]

/-- Helper: a successfully constructed `Commit` object carries no `NO_BUMP` verdict
and no `[no-bump]`-family token in its lowercased title. -/
theorem mkCommit_ok_facts (sha title : String) (changed_files ignore_paths : List String)
    (force_patch : Bool) (c : Commit)
    (h : mkCommit sha title changed_files ignore_paths force_patch = Except.ok c) :
    c.bump_type ≠ some BumpType.NO_BUMP ∧
      has_bump_token BumpType.NO_BUMP c.title_lower = false := by
  unfold mkCommit at h
  cases hpi : commitPostInit title changed_files ignore_paths force_patch with
  | error e => rw [hpi] at h; exact Except.noConfusion h
  | ok bt =>
    rw [hpi] at h
    simp at h
    constructor
    · rw [← h]
      exact commitPostInit_ok_ne_nb title changed_files ignore_paths force_patch bt hpi
    · rw [← h]
      exact commitPostInit_ok_no_nb_token title changed_files ignore_paths force_patch bt hpi

/-- C1.  The claim says the FIRST matching kind in table order (the
highest-precedence one) wins.  On the code, `[major]` together with `[patch]`
yields `PATCH`, not `MAJOR`, because the classifier loop has no `break`. -/
theorem c1_counterexample :
    commitPostInit "[major] [patch]" ["src/a.py"] [] false
        = Except.ok (some BumpType.PATCH) ∧
      BumpType.PATCH ≠ BumpType.MAJOR := ⟨by decide, by decide⟩

/-- C1 (amended).  For a title whose markers all belong to kinds at table position
`tableIdx b` or earlier, the classifier's verdict is `b`: the LAST matching kind in
the fixed table order Major, Minor, Patch, NoBump — i.e. the lowest-precedence
matching kind — regardless of where the markers appear in the title; a winning
`NoBump` raises `DisqualifiedCommit` instead of being returned. -/
theorem c1_amended_thm (title : String) (changed_files ignore_paths : List String)
    (force_patch : Bool) (b : BumpType)
    (hb : has_bump_token b (pyLower title) = true)
    (hlast : ∀ b', tableIdx b < tableIdx b' → has_bump_token b' (pyLower title) = false) :
    commitPostInit title changed_files ignore_paths force_patch =
      (if b = BumpType.NO_BUMP then Except.error PyError.disqualifiedCommit
       else Except.ok (some b)) := by
  rw [commitPostInit_eq]
  cases b with
  | MAJOR =>
    have h2 := hlast BumpType.MINOR (by decide)
    have h3 := hlast BumpType.PATCH (by decide)
    have h4 := hlast BumpType.NO_BUMP (by decide)
    simp [hb, h2, h3, h4]
  | MINOR =>
    have h3 := hlast BumpType.PATCH (by decide)
    have h4 := hlast BumpType.NO_BUMP (by decide)
    simp [hb, h3, h4]
  | PATCH =>
    have h4 := hlast BumpType.NO_BUMP (by decide)
    simp [hb, h4]
  | NO_BUMP => simp [hb]

/-- C1 (witness): a `[minor]`-only title classifies as `MINOR`. -/
theorem c1_witness :
    commitPostInit "feat: add widgets [minor]" ["src/w.py"] [] false
      = Except.ok (some BumpType.MINOR) := by
  have h := c1_amended_thm "feat: add widgets [minor]" ["src/w.py"] [] false
    BumpType.MINOR (by decide) (by decide)
  simpa using h

/-- C2.  The claim (matching the function's own docstring) says the two scenarios
give `NoBump` resp. "no decision".  The code agrees only while no tokenless commit
exists; as soon as one does (second conjunct: the claim's NoBump + Tokenless
scenario), evaluating the undefined name `_commit_has_non_ignored_changes` raises
`NameError` instead of producing the documented "no decision". -/
theorem c2_code_eval :
    decide_bump_from_commits
        [{ sha := "a", title := "chore: x [no-bump]", changed_files := ["src/a.py"],
           title_lower := "chore: x [no-bump]", bump_type := none }]
        [] false = Except.ok (some BumpType.NO_BUMP) ∧
      decide_bump_from_commits
        [{ sha := "a", title := "chore: x [no-bump]", changed_files := ["src/a.py"],
           title_lower := "chore: x [no-bump]", bump_type := none },
         { sha := "b", title := "refactor: y", changed_files := ["src/b.py"],
           title_lower := "refactor: y", bump_type := none }]
        [] false = Except.error PyError.nameError := ⟨by decide, by decide⟩

/-- C3.  The claim says classification is total and never raises.  A title carrying
a `[no-bump]` marker makes the constructor raise `DisqualifiedCommit`. -/
theorem c3_counterexample :
    commitPostInit "chore: x [no-bump]" ["src/a.py"] [] false
      = Except.error PyError.disqualifiedCommit := by decide

/-- C3 (amended).  Classification returns a verdict exactly for commits whose title
matches some marker and whose last-matching kind is not NoBump; a title whose
winning kind is NoBump raises `DisqualifiedCommit`, and a title with no marker at
all raises `AttributeError` (the unset `bump_type` attribute is read at
`if not self.bump_type:`). -/
theorem c3_amended_thm (title : String) (changed_files ignore_paths : List String)
    (force_patch : Bool) :
    ((∃ b, has_bump_token b (pyLower title) = true) →
      has_bump_token BumpType.NO_BUMP (pyLower title) = false →
      ∃ b, commitPostInit title changed_files ignore_paths force_patch
            = Except.ok (some b)) ∧
    (has_bump_token BumpType.NO_BUMP (pyLower title) = true →
      commitPostInit title changed_files ignore_paths force_patch
        = Except.error PyError.disqualifiedCommit) ∧
    ((∀ b, has_bump_token b (pyLower title) = false) →
      commitPostInit title changed_files ignore_paths force_patch
        = Except.error PyError.attributeError) := by
  refine ⟨?_, ?_, ?_⟩
  · rintro ⟨b, hb⟩ hnb
    rw [commitPostInit_eq]
    by_cases h3 : has_bump_token BumpType.PATCH (pyLower title)
    · exact ⟨BumpType.PATCH, by simp [hnb, h3]⟩
    · by_cases h2 : has_bump_token BumpType.MINOR (pyLower title)
      · exact ⟨BumpType.MINOR, by simp [hnb, h3, h2]⟩
      · by_cases h1 : has_bump_token BumpType.MAJOR (pyLower title)
        · exact ⟨BumpType.MAJOR, by simp [hnb, h3, h2, h1]⟩
        · exfalso
          cases b with
          | MAJOR => exact h1 hb
          | MINOR => exact h2 hb
          | PATCH => exact h3 hb
          | NO_BUMP => rw [hb] at hnb; exact Bool.noConfusion hnb
  · intro h
    rw [commitPostInit_eq]
    simp [h]
  · intro h
    rw [commitPostInit_eq]
    simp [h BumpType.NO_BUMP, h BumpType.PATCH, h BumpType.MINOR, h BumpType.MAJOR]

/-- C3 (witness): exercise the verdict case of the amended theorem. -/
theorem c3_witness :
    ∃ b, commitPostInit "feat: y [minor]" [] [] false = Except.ok (some b) :=
  (c3_amended_thm "feat: y [minor]" [] [] false).1 ⟨BumpType.MINOR, by decide⟩ (by decide)

/-- C4.  The claim says a marker-free title gets the `Tokenless` verdict.  On the
code it raises `AttributeError` instead (even with force-patch enabled). -/
theorem c4_counterexample :
    commitPostInit "chore: tidy" ["src/a.py"] [] true
      = Except.error PyError.attributeError := by decide

/-- C4 (amended).  A commit whose title contains no recognized marker never gets a
verdict: construction raises `AttributeError`, because the tokenless branch of
`__post_init__` (lines 109–116, including the force-patch `PATCH` assignment) is
unreachable.  In particular the classifier's result never depends on the
force-patch setting, the changed files, or the ignore patterns — any Patch-via-force
decision can only be made in the Aggregator. -/
theorem c4_amended_thm :
    (∀ (title : String) (changed_files ignore_paths : List String) (force_patch : Bool),
      (∀ b, has_bump_token b (pyLower title) = false) →
      commitPostInit title changed_files ignore_paths force_patch
        = Except.error PyError.attributeError) ∧
    (∀ (title : String) (f1 f2 p1 p2 : List String) (fp1 fp2 : Bool),
      commitPostInit title f1 p1 fp1 = commitPostInit title f2 p2 fp2) := by
  constructor
  · intro title changed_files ignore_paths force_patch h
    rw [commitPostInit_eq]
    simp [h BumpType.NO_BUMP, h BumpType.PATCH, h BumpType.MINOR, h BumpType.MAJOR]
  · intro title f1 f2 p1 p2 fp1 fp2
    rw [commitPostInit_eq, commitPostInit_eq]

/-- C4 (witness): a marker-free title raises `AttributeError`, identically for
every configuration. -/
theorem c4_witness :
    commitPostInit "docs: update readme" ["README.md"] [] false
        = Except.error PyError.attributeError ∧
      commitPostInit "docs: update readme" ["README.md"] [] false
        = commitPostInit "docs: update readme" [] ["*"] true :=
  ⟨c4_amended_thm.1 "docs: update readme" ["README.md"] [] false (by decide),
   c4_amended_thm.2 "docs: update readme" ["README.md"] [] [] ["*"] false true⟩

/-- Helper: the `titles_lower` list comprehension turns the per-title `any` of the
aggregator into an `any` over the commits themselves. -/
theorem any_title (commits : List Commit) (b : BumpType) :
    ((commits.map fun c => c.title_lower).any fun t => has_bump_token b t)
      = commits.any fun c => has_bump_token b c.title_lower := by
  induction commits with
  | nil => rfl
  | cons c cs ih => simp [List.any_cons, ih]

/-- Helper: turn a membership witness into a true `any`. -/
theorem any_true_of_mem {α : Type} {l : List α} {p : α → Bool} {x : α}
    (hx : x ∈ l) (hpx : p x = true) : l.any p = true :=
  List.any_eq_true.mpr ⟨x, hx, hpx⟩

/-- Helper: a pointwise-false predicate gives a false `any`. -/
theorem any_false_of_all {α : Type} {l : List α} {p : α → Bool}
    (h : ∀ x ∈ l, p x = false) : l.any p = false := by
  cases hh : l.any p with
  | false => rfl
  | true =>
    exfalso
    obtain ⟨x, hx, hpx⟩ := List.any_eq_true.mp hh
    rw [h x hx] at hpx
    exact Bool.noConfusion hpx

/-- C5.  Aggregator precedence: any `[major]` title forces `MAJOR` regardless of
everything else; with no `[major]`, any `[minor]` forces `MINOR`; with neither, any
`[patch]`/`[fix]`/`[bump]` forces `PATCH`.  These checks run before the broken
tokenless scan, so they hold unconditionally. -/
theorem c5_thm (commits : List Commit) (ignore_path_patterns : List String)
    (force_patch : Bool) :
    ((∃ c ∈ commits, has_bump_token BumpType.MAJOR c.title_lower = true) →
      decide_bump_from_commits commits ignore_path_patterns force_patch
        = Except.ok (some BumpType.MAJOR)) ∧
    ((∀ c ∈ commits, has_bump_token BumpType.MAJOR c.title_lower = false) →
      (∃ c ∈ commits, has_bump_token BumpType.MINOR c.title_lower = true) →
      decide_bump_from_commits commits ignore_path_patterns force_patch
        = Except.ok (some BumpType.MINOR)) ∧
    ((∀ c ∈ commits, has_bump_token BumpType.MAJOR c.title_lower = false) →
      (∀ c ∈ commits, has_bump_token BumpType.MINOR c.title_lower = false) →
      (∃ c ∈ commits, has_bump_token BumpType.PATCH c.title_lower = true) →
      decide_bump_from_commits commits ignore_path_patterns force_patch
        = Except.ok (some BumpType.PATCH)) := by
  refine ⟨?_, ?_, ?_⟩
  · rintro ⟨c, hc, hb⟩
    have h1 : (commits.any fun c => has_bump_token BumpType.MAJOR c.title_lower) = true :=
      any_true_of_mem hc hb
    simp [decide_bump_from_commits, any_title, h1]
  · rintro hno ⟨c, hc, hb⟩
    have h1 : (commits.any fun c => has_bump_token BumpType.MAJOR c.title_lower) = false :=
      any_false_of_all hno
    have h2 : (commits.any fun c => has_bump_token BumpType.MINOR c.title_lower) = true :=
      any_true_of_mem hc hb
    simp [decide_bump_from_commits, any_title, h1, h2]
  · rintro hnoM hnoN ⟨c, hc, hb⟩
    have h1 : (commits.any fun c => has_bump_token BumpType.MAJOR c.title_lower) = false :=
      any_false_of_all hnoM
    have h2 : (commits.any fun c => has_bump_token BumpType.MINOR c.title_lower) = false :=
      any_false_of_all hnoN
    have h3 : (commits.any fun c => has_bump_token BumpType.PATCH c.title_lower) = true :=
      any_true_of_mem hc hb
    simp [decide_bump_from_commits, any_title, h1, h2, h3]

/-- C5 (witness): one `[major]` commit decides `MAJOR`. -/
theorem c5_witness :
    decide_bump_from_commits
      [{ sha := "a", title := "x [major]", changed_files := ["f"],
         title_lower := "x [major]", bump_type := some BumpType.MAJOR }]
      ["docs/*"] true = Except.ok (some BumpType.MAJOR) :=
  (c5_thm _ _ _).1
    ⟨{ sha := "a", title := "x [major]", changed_files := ["f"],
       title_lower := "x [major]", bump_type := some BumpType.MAJOR },
     by simp, by decide⟩

/-- C6.  The claim (and the repo's own `test_300`) says `work` prints `"1.2.4"` for
tag `"1.2.3"` and one `[patch]` commit.  `work` instead raises `NameError` on its
very first log statements (`ignore_path_patterns` / `force_patch` are referenced
but commented out of its signature); every stage it should have orchestrated works
and would have produced `"1.2.4"` (remaining conjuncts). -/
theorem c6_code_eval :
    work "1.2.3" [⟨"deadbeef", "fix: bug [patch]", ["src/a.py"]⟩] VERSION_STYLE_X_Y_Z
        = Except.error PyError.nameError ∧
      get_commits_with_changes [⟨"deadbeef", "fix: bug [patch]", ["src/a.py"]⟩] [] false
        = Except.ok
            [{ sha := "deadbeef", title := "fix: bug [patch]",
               changed_files := ["src/a.py"], title_lower := "fix: bug [patch]",
               bump_type := some BumpType.PATCH }] ∧
      decide_bump_from_commits
          [{ sha := "deadbeef", title := "fix: bug [patch]",
             changed_files := ["src/a.py"], title_lower := "fix: bug [patch]",
             bump_type := some BumpType.PATCH }] [] false
        = Except.ok (some BumpType.PATCH) ∧
      increment_bump "1.2.3" BumpType.PATCH VERSION_STYLE_X_Y_Z = Except.ok "1.2.4" :=
  ⟨by decide, by decide, by decide, by decide⟩

/-- C7.  Bump math: under `X.Y`, `PATCH` behaves exactly like `MINOR`
(`(M, N) → (M, N+1)`, e.g. `1.2 → 1.3`); under `X.Y.Z`, `PATCH`/`MINOR`/`MAJOR`
produce `(M, N, P+1)` / `(M, N+1, 0)` / `(M+1, 0, 0)`. -/
theorem c7_thm :
    (∀ (s : String) (M N : Int),
      parse_version s VERSION_STYLE_X_Y = Except.ok (M, N, 0) →
        increment_bump s BumpType.PATCH VERSION_STYLE_X_Y = Except.ok s!"{M}.{N + 1}" ∧
        increment_bump s BumpType.PATCH VERSION_STYLE_X_Y
          = increment_bump s BumpType.MINOR VERSION_STYLE_X_Y) ∧
    increment_bump "1.2" BumpType.PATCH VERSION_STYLE_X_Y = Except.ok "1.3" ∧
    (∀ (s : String) (M N P : Int),
      parse_version s VERSION_STYLE_X_Y_Z = Except.ok (M, N, P) →
        increment_bump s BumpType.PATCH VERSION_STYLE_X_Y_Z
            = Except.ok s!"{M}.{N}.{P + 1}" ∧
        increment_bump s BumpType.MINOR VERSION_STYLE_X_Y_Z
            = Except.ok s!"{M}.{N + 1}.{(0 : Int)}" ∧
        increment_bump s BumpType.MAJOR VERSION_STYLE_X_Y_Z
            = Except.ok s!"{M + 1}.{(0 : Int)}.{(0 : Int)}") := by
  have hne : ¬ (VERSION_STYLE_X_Y = VERSION_STYLE_X_Y_Z) := by decide
  refine ⟨?_, by decide, ?_⟩
  · intro s M N h
    constructor
    · simp [increment_bump, h, minor_bump, hne]
    · simp [increment_bump, h, minor_bump, hne]
  · intro s M N P h
    refine ⟨?_, ?_, ?_⟩ <;>
      simp [increment_bump, h, minor_bump, major_bump, patch_bump]

/-- C7 (witness): instantiate the two-component collapse at `"1.2"`. -/
theorem c7_witness :
    increment_bump "1.2" BumpType.PATCH VERSION_STYLE_X_Y
        = increment_bump "1.2" BumpType.MINOR VERSION_STYLE_X_Y ∧
      increment_bump "1.2.3" BumpType.MINOR VERSION_STYLE_X_Y_Z = Except.ok "1.3.0" := by
  constructor
  · exact (c7_thm.1 "1.2" 1 2 (by decide)).2
  · have h := (c7_thm.2.2 "1.2.3" 1 2 3 (by decide)).2.1
    rw [h]
    decide

/-- C8.  The claim says components must be NON-NEGATIVE integers and anything else
(including a negative component) fails to parse.  Python's `int()` accepts a sign,
so `"1.2.-3"` parses under `X.Y.Z` (and a patch bump then produces `"1.2.-2"`). -/
theorem c8_counterexample :
    parse_version "1.2.-3" VERSION_STYLE_X_Y_Z = Except.ok (1, 2, -3) ∧
      increment_bump "1.2.-3" BumpType.PATCH VERSION_STYLE_X_Y_Z
        = Except.ok "1.2.-2" := ⟨by decide, by decide⟩

/-- Helper: characterization of three-component parsing: success iff the tag splits
into exactly 3 `int()`-parseable pieces, and every other shape yields the
`ValueError` carrying the tag and the style. -/
theorem parse_version_xyz_char (s : String) :
    ((∃ v, parse_version s VERSION_STYLE_X_Y_Z = Except.ok v) ↔
      ((pySplitDot s).length = 3 ∧ ∀ p ∈ pySplitDot s, (pyInt p).isSome = true)) ∧
    (¬ ((pySplitDot s).length = 3 ∧ ∀ p ∈ pySplitDot s, (pyInt p).isSome = true) →
      parse_version s VERSION_STYLE_X_Y_Z
        = Except.error (PyError.valueErrorParse s VERSION_STYLE_X_Y_Z)) := by
  have hdef : parse_version s VERSION_STYLE_X_Y_Z =
      (match pyMapInt (pySplitDot s) with
       | some [major, minor, patch] => Except.ok (major, minor, patch)
       | _ => Except.error (PyError.valueErrorParse s VERSION_STYLE_X_Y_Z)) := by
    simp [parse_version]
  rw [hdef]
  cases hm : pyMapInt (pySplitDot s) with
  | none =>
    have hno : ¬ ∀ p ∈ pySplitDot s, (pyInt p).isSome = true := by
      intro hall
      have h2 := (pyMapInt_isSome (pySplitDot s)).mpr hall
      rw [hm] at h2
      exact Bool.noConfusion h2
    constructor
    · constructor
      · rintro ⟨v, hv⟩
        exact Except.noConfusion hv
      · rintro ⟨-, hall⟩
        exact absurd hall hno
    · intro h2
      rfl
  | some r =>
    have hlen := pyMapInt_length (pySplitDot s) r hm
    have hall : ∀ p ∈ pySplitDot s, (pyInt p).isSome = true := by
      apply (pyMapInt_isSome (pySplitDot s)).mp
      rw [hm]
      rfl
    rcases r with _ | ⟨a, _ | ⟨b, _ | ⟨c, _ | ⟨d, t⟩⟩⟩⟩
    · refine ⟨⟨?_, ?_⟩, ?_⟩
      · rintro ⟨v, hv⟩; exact Except.noConfusion hv
      · rintro ⟨hl, -⟩; rw [← hlen] at hl
        simp only [List.length_nil] at hl
        exact absurd hl (by omega)
      · intro h2; rfl
    · refine ⟨⟨?_, ?_⟩, ?_⟩
      · rintro ⟨v, hv⟩; exact Except.noConfusion hv
      · rintro ⟨hl, -⟩; rw [← hlen] at hl
        simp only [List.length_cons, List.length_nil] at hl
        exact absurd hl (by omega)
      · intro h2; rfl
    · refine ⟨⟨?_, ?_⟩, ?_⟩
      · rintro ⟨v, hv⟩; exact Except.noConfusion hv
      · rintro ⟨hl, -⟩; rw [← hlen] at hl
        simp only [List.length_cons, List.length_nil] at hl
        exact absurd hl (by omega)
      · intro h2; rfl
    · refine ⟨⟨?_, ?_⟩, ?_⟩
      · intro h2
        refine ⟨?_, hall⟩
        rw [← hlen]; rfl
      · intro h2
        exact ⟨(a, b, c), rfl⟩
      · intro h2
        exact absurd ⟨by rw [← hlen]; rfl, hall⟩ h2
    · refine ⟨⟨?_, ?_⟩, ?_⟩
      · rintro ⟨v, hv⟩; exact Except.noConfusion hv
      · rintro ⟨hl, -⟩; rw [← hlen] at hl
        simp only [List.length_cons] at hl
        exact absurd hl (by omega)
      · intro h2; rfl

/-- Helper: the analogous characterization for two-component parsing. -/
theorem parse_version_xy_char (s : String) :
    ((∃ v, parse_version s VERSION_STYLE_X_Y = Except.ok v) ↔
      ((pySplitDot s).length = 2 ∧ ∀ p ∈ pySplitDot s, (pyInt p).isSome = true)) ∧
    (¬ ((pySplitDot s).length = 2 ∧ ∀ p ∈ pySplitDot s, (pyInt p).isSome = true) →
      parse_version s VERSION_STYLE_X_Y
        = Except.error (PyError.valueErrorParse s VERSION_STYLE_X_Y)) := by
  have hne : ¬ (VERSION_STYLE_X_Y = VERSION_STYLE_X_Y_Z) := by decide
  have hdef : parse_version s VERSION_STYLE_X_Y =
      (match pyMapInt (pySplitDot s) with
       | some [major, minor] => Except.ok (major, minor, 0)
       | _ => Except.error (PyError.valueErrorParse s VERSION_STYLE_X_Y)) := by
    simp [parse_version, hne]
  rw [hdef]
  cases hm : pyMapInt (pySplitDot s) with
  | none =>
    have hno : ¬ ∀ p ∈ pySplitDot s, (pyInt p).isSome = true := by
      intro hall
      have h2 := (pyMapInt_isSome (pySplitDot s)).mpr hall
      rw [hm] at h2
      exact Bool.noConfusion h2
    constructor
    · constructor
      · rintro ⟨v, hv⟩
        exact Except.noConfusion hv
      · rintro ⟨-, hall⟩
        exact absurd hall hno
    · intro h2
      rfl
  | some r =>
    have hlen := pyMapInt_length (pySplitDot s) r hm
    have hall : ∀ p ∈ pySplitDot s, (pyInt p).isSome = true := by
      apply (pyMapInt_isSome (pySplitDot s)).mp
      rw [hm]
      rfl
    rcases r with _ | ⟨a, _ | ⟨b, _ | ⟨c, t⟩⟩⟩
    · refine ⟨⟨?_, ?_⟩, ?_⟩
      · rintro ⟨v, hv⟩; exact Except.noConfusion hv
      · rintro ⟨hl, -⟩; rw [← hlen] at hl
        simp only [List.length_nil] at hl
        exact absurd hl (by omega)
      · intro h2; rfl
    · refine ⟨⟨?_, ?_⟩, ?_⟩
      · rintro ⟨v, hv⟩; exact Except.noConfusion hv
      · rintro ⟨hl, -⟩; rw [← hlen] at hl
        simp only [List.length_cons, List.length_nil] at hl
        exact absurd hl (by omega)
      · intro h2; rfl
    · refine ⟨⟨?_, ?_⟩, ?_⟩
      · intro h2
        refine ⟨?_, hall⟩
        rw [← hlen]; rfl
      · intro h2
        exact ⟨(a, b, 0), rfl⟩
      · intro h2
        exact absurd ⟨by rw [← hlen]; rfl, hall⟩ h2
    · refine ⟨⟨?_, ?_⟩, ?_⟩
      · rintro ⟨v, hv⟩; exact Except.noConfusion hv
      · rintro ⟨hl, -⟩; rw [← hlen] at hl
        simp only [List.length_cons] at hl
        exact absurd hl (by omega)
      · intro h2; rfl

/-- C8 (amended).  Parsing succeeds exactly when the tag splits on `.` into exactly
3 (`X.Y.Z`) resp. 2 (`X.Y`) components each accepted by Python's `int()` — which
also accepts signed (hence negative) components; any other shape fails with the
`ValueError` naming the offending string and the style.  The spec's "non-negative"
restriction is not enforced by the code. -/
theorem c8_amended_thm (s : String) :
    ((∃ v, parse_version s VERSION_STYLE_X_Y_Z = Except.ok v) ↔
      ((pySplitDot s).length = 3 ∧ ∀ p ∈ pySplitDot s, (pyInt p).isSome = true)) ∧
    (¬ ((pySplitDot s).length = 3 ∧ ∀ p ∈ pySplitDot s, (pyInt p).isSome = true) →
      parse_version s VERSION_STYLE_X_Y_Z
        = Except.error (PyError.valueErrorParse s VERSION_STYLE_X_Y_Z)) ∧
    ((∃ v, parse_version s VERSION_STYLE_X_Y = Except.ok v) ↔
      ((pySplitDot s).length = 2 ∧ ∀ p ∈ pySplitDot s, (pyInt p).isSome = true)) ∧
    (¬ ((pySplitDot s).length = 2 ∧ ∀ p ∈ pySplitDot s, (pyInt p).isSome = true) →
      parse_version s VERSION_STYLE_X_Y
        = Except.error (PyError.valueErrorParse s VERSION_STYLE_X_Y)) :=
  ⟨(parse_version_xyz_char s).1, (parse_version_xyz_char s).2,
   (parse_version_xy_char s).1, (parse_version_xy_char s).2⟩

/-- C8 (witness): a well-shaped tag parses; the malformed `"1.2"` under `X.Y.Z`
(spec scenario 6) yields the parse error naming tag and style. -/
theorem c8_witness :
    (∃ v, parse_version "1.2.3" VERSION_STYLE_X_Y_Z = Except.ok v) ∧
      parse_version "1.2" VERSION_STYLE_X_Y_Z
        = Except.error (PyError.valueErrorParse "1.2" VERSION_STYLE_X_Y_Z) :=
  ⟨(c8_amended_thm "1.2.3").1.mpr ⟨by decide, by decide⟩,
   (c8_amended_thm "1.2").2.1 (by decide)⟩

/-- C9.  The Aggregator's result is invariant under any permutation of the commit
sequence: every branch condition is an existence check over the list (including the
`NameError` trigger, which fires exactly when some tokenless commit exists). -/
theorem c9_thm (l₁ l₂ : List Commit) (ignore_path_patterns : List String)
    (force_patch : Bool) (h : l₁.Perm l₂) :
    decide_bump_from_commits l₁ ignore_path_patterns force_patch =
      decide_bump_from_commits l₂ ignore_path_patterns force_patch := by
  have hmap : (l₁.map fun c => c.title_lower).Perm (l₂.map fun c => c.title_lower) :=
    h.map fun c => c.title_lower
  simp only [decide_bump_from_commits, perm_any hmap, perm_any h]

/-- C9 (witness): swapping two commits leaves the decision unchanged. -/
theorem c9_witness :
    decide_bump_from_commits
        [{ sha := "a", title := "chore: a [no-bump]", changed_files := ["x.py"],
           title_lower := "chore: a [no-bump]", bump_type := none },
         { sha := "b", title := "feat: b [minor]", changed_files := ["y.py"],
           title_lower := "feat: b [minor]", bump_type := some BumpType.MINOR }]
        [] false
      = decide_bump_from_commits
          [{ sha := "b", title := "feat: b [minor]", changed_files := ["y.py"],
             title_lower := "feat: b [minor]", bump_type := some BumpType.MINOR },
           { sha := "a", title := "chore: a [no-bump]", changed_files := ["x.py"],
             title_lower := "chore: a [no-bump]", bump_type := none }]
          [] false :=
  c9_thm _ _ [] false (List.Perm.swap _ _ [])

/-- C10.  Invariant: a constructed `Commit` never has `bump_type = NO_BUMP` (line
118 raises `DisqualifiedCommit` first), and the list returned by
`get_commits_with_changes` never contains a commit whose (lowercased) title carries
a `[no-bump]`-family marker — such commits are silently dropped by
`except DisqualifiedCommit: pass`. -/
theorem c10_thm :
    (∀ (title : String) (changed_files ignore_paths : List String) (force_patch : Bool)
        (v : Option BumpType),
      commitPostInit title changed_files ignore_paths force_patch = Except.ok v →
        v ≠ some BumpType.NO_BUMP) ∧
    (∀ (records : List CommitRec) (ignore_paths : List String) (force_patch : Bool)
        (cs : List Commit),
      get_commits_with_changes records ignore_paths force_patch = Except.ok cs →
        ∀ c ∈ cs, c.bump_type ≠ some BumpType.NO_BUMP ∧
          has_bump_token BumpType.NO_BUMP c.title_lower = false) := by
  constructor
  · exact commitPostInit_ok_ne_nb
  · intro records
    induction records with
    | nil =>
      intro ip fp cs h c hc
      simp only [get_commits_with_changes, Except.ok.injEq] at h
      subst h
      simp at hc
    | cons r rest ih =>
      intro ip fp cs h c hc
      simp only [get_commits_with_changes] at h
      split at h
      · rename_i c0 hmk
        split at h
        · rename_i cs' hrest
          simp only [Except.ok.injEq] at h
          subst h
          rcases List.mem_cons.mp hc with rfl | hc'
          · exact mkCommit_ok_facts _ _ _ _ _ _ hmk
          · exact ih ip fp cs' hrest c hc'
        · exact Except.noConfusion h
      · exact ih ip fp cs h c hc
      · exact Except.noConfusion h

/-- C10 (witness): in a range with one `[minor]` commit and one `[no-bump]` commit,
the returned list keeps only the former, which satisfies both invariants. -/
theorem c10_witness :
    ({ sha := "a", title := "feat: x [minor]", changed_files := ["f"],
       title_lower := "feat: x [minor]", bump_type := some BumpType.MINOR } : Commit).bump_type
        ≠ some BumpType.NO_BUMP ∧
      has_bump_token BumpType.NO_BUMP
        ({ sha := "a", title := "feat: x [minor]", changed_files := ["f"],
           title_lower := "feat: x [minor]",
           bump_type := some BumpType.MINOR } : Commit).title_lower = false :=
  c10_thm.2 [⟨"a", "feat: x [minor]", ["f"]⟩, ⟨"b", "chore [no-bump]", ["g"]⟩] [] false
    [{ sha := "a", title := "feat: x [minor]", changed_files := ["f"],
       title_lower := "feat: x [minor]", bump_type := some BumpType.MINOR }]
    (by decide) _ (List.mem_singleton.mpr rfl)
